import Mathlib

/-!
Verification development for the OLOPA escrow backend.

The service logic (escrow.service, the validators, and the route pipeline)
is embedded shallowly: each service operation becomes a pure Lean function
from the request parameters, a client-connection state, and a ledger oracle
(the responses the external ledger/transport would give) to the list of
external calls it issues together with its outcome (a result, or the error
it throws).  Definitions follow the JavaScript source field by field.
-/

namespace Olopa

/-- Amount of an escrow: a drops string or an issued-currency object
(`{currency, value, issuer}` with optional issuer), mirroring the
`Joi.alternatives` in the validators and the pass-through use in the service. -/
inductive Amount where
  | drops (s : String)
  | issued (currency : Option String) (value : Option String) (issuer : Option String)
deriving DecidableEq, Repr

/-- A memo object `{type, data}` as supplied by the caller; both fields optional. -/
structure MemoSpec where
  type : Option String := none
  data : Option String := none
deriving DecidableEq, Repr

/-- One entry of the `Memos` array built by the service:
`{ Memo: { MemoType, MemoData } }`. -/
structure MemoEntry where
  memoType : String
  memoData : String
deriving DecidableEq, Repr

/-- One `{ Signer: { Account, TxnSignature, SigningPubKey } }` entry of the
`Signers` array built by `submitMultisigTransaction`. -/
structure SignerEntry where
  account : String
  txnSignature : String
  signingPubKey : String
deriving DecidableEq, Repr

/-- A ledger transaction object as the service builds it: the open JS field map
is modelled as a record of the fields the source ever sets or reads, with
`none` standing for an absent key. -/
structure EscrowTx where
  transactionType : String := ""
  account : String := ""
  destination : Option String := none
  owner : Option String := none
  offerSequence : Option Int := none
  amount : Option Amount := none
  finishAfter : Option Int := none
  cancelAfter : Option Int := none
  condition : Option String := none
  fulfillment : Option String := none
  memos : Option (List MemoEntry) := none
  fee : Option String := none
  sequence : Option Int := none
  lastLedgerSequence : Option Int := none
  signingPubKey : Option String := none
  signers : Option (List SignerEntry) := none
deriving DecidableEq, Repr

/-- A `{signer, signature, publicKey}` signature packet as the service consumes it. -/
structure SignaturePacket where
  signer : String
  signature : String
  publicKey : Option String := none
deriving DecidableEq, Repr

/-- One `{Account, SignerWeight}` entry of a ledger signer list. -/
structure SignerListEntry where
  account : String
  signerWeight : Int
deriving DecidableEq, Repr

/-- A signer list object from `account_info` (`signer_lists[i]`), carrying the
quorum threshold and the signer entries. -/
structure SignerList where
  signerQuorum : Int
  signerEntries : List SignerListEntry
deriving DecidableEq, Repr

/-- Parameters of `prepareEscrowCreate` (after destructuring `params`). -/
structure CreateParams where
  sourceAddress : String
  destinationAddress : String
  amount : Amount
  finishAfter : Option Int := none
  cancelAfter : Option Int := none
  condition : Option String := none
  memo : Option MemoSpec := none
deriving DecidableEq, Repr

/-- Parameters of `prepareEscrowFinish`. -/
structure FinishParams where
  finisherAddress : String
  ownerAddress : String
  offerSequence : Int
  fulfillment : Option String := none
deriving DecidableEq, Repr

/-- Parameters of `prepareEscrowCancel`. -/
structure CancelParams where
  cancellerAddress : String
  ownerAddress : String
  offerSequence : Int
deriving DecidableEq, Repr

/-- Parameters of `submitMultisigTransaction`. -/
structure MultisigParams where
  transaction : EscrowTx
  signatures : List SignaturePacket
deriving DecidableEq, Repr

/-- The time codec of the source (`toRippleTime`): subtract the fixed offset
between the Unix epoch and the ledger epoch (Jan 1, 2000 UTC). -/
def toRippleTime (unixTimestamp : Int) : Int :=
  unixTimestamp - 946684800

/-- The inverse time codec of the source (`fromRippleTime`). -/
def fromRippleTime (rippleTime : Int) : Int :=
  rippleTime + 946684800

/-- UTF-8 encoding of one character as a list of byte values, the encoding
`Buffer.from(str, 'utf8')` performs. -/
def charUtf8 (c : Char) : List Nat :=
  let v := c.toNat
  if v < 128 then [v]
  else if v < 2048 then [192 + v / 64, 128 + v % 64]
  else if v < 65536 then [224 + v / 4096, 128 + (v / 64) % 64, 128 + v % 64]
  else [240 + v / 262144, 128 + (v / 4096) % 64, 128 + (v / 64) % 64, 128 + v % 64]

/-- UTF-8 byte sequence of a string. -/
def stringUtf8 (s : String) : List Nat :=
  s.data.flatMap charUtf8

/-- Uppercase hexadecimal digit for a value below 16. -/
def hexDigitChar (n : Nat) : Char :=
  if n < 10 then Char.ofNat (48 + n) else Char.ofNat (55 + n)

/-- Two uppercase hexadecimal digits of one byte. -/
def byteHexChars (b : Nat) : List Char :=
  [hexDigitChar (b / 16), hexDigitChar (b % 16)]

/-- The memo codec of the source (`_toHex`): UTF-8 bytes rendered as
uppercase hexadecimal. -/
def toHex (s : String) : String :=
  String.mk ((stringUtf8 s).flatMap byteHexChars)

/-- JavaScript `x || d` on an optional string: an absent or empty string
falls back to the default. -/
def jsOrDefault (x : Option String) (d : String) : String :=
  match x with
  | some s => if s = "" then d else s
  | none => d

/-- JavaScript `x ? f(x) : skip` on an optional number field: `0` is falsy,
so the field is included only for a present non-zero value;
used for the FinishAfter/CancelAfter conditional assignments. -/
def optRipple (x : Option Int) : Option Int :=
  match x with
  | some t => if t = 0 then none else some (toRippleTime t)
  | none => none

/-- JavaScript `x ? (include x) : skip` on an optional string field:
the empty string is falsy and is skipped. -/
def optStr (x : Option String) : Option String :=
  match x with
  | some s => if s = "" then none else some s
  | none => none

/-- The single memo entry the service builds:
`MemoType: _toHex(memo.type || 'escrow'), MemoData: _toHex(memo.data || '')`. -/
def mkMemoEntry (m : MemoSpec) : MemoEntry :=
  { memoType := toHex (jsOrDefault m.type "escrow")
    memoData := toHex (jsOrDefault m.data "") }

/-- State of the shared XRPL client handle: whether
`this.client && this.client.isConnected()` holds on entry. -/
structure ClientState where
  connected : Bool
deriving DecidableEq, Repr

/-- The fee/sequence/expiry data the external gateway's `autofill` adds.
Modelled from the spec (section 6): the gateway populates fee, sequence and
the expiry ledger bound, and never changes semantic fields it was given;
the `xrpl` library implementing it is not part of this repository. -/
structure AutofillFill where
  fee : String
  sequence : Int
  lastLedgerSequence : Int
deriving DecidableEq, Repr

/-- The ledger's reply to `submit` (`result.result` in the source). -/
structure SubmitResponse where
  engineResult : String
  engineResultMessage : String
  txJsonHash : String
  validated : Option Bool := none
deriving DecidableEq, Repr

/-- An error thrown by a ledger `request` call: its message and the optional
`error.data.error` code the source inspects (`entryNotFound`). -/
structure LedgerFailure where
  message : String
  dataError : Option String := none
deriving DecidableEq, Repr

/-- The escrow ledger entry (`response.result.node`) for `getEscrowStatus`. -/
structure EscrowNode where
  account : String
  destination : String
  amount : Amount
  finishAfterTime : Int
  cancelAfterTime : Option Int := none
  condition : Option String := none
  sourceTag : Option Int := none
  destinationTag : Option Int := none
  previousTxnID : String
deriving DecidableEq, Repr

/-- Responses of the external ledger/transport for one service call: what
connecting, `autofill`, `account_info`, `submit`, and `ledger_entry` would
yield.  `Except.error` is the external call rejecting (throwing). -/
structure LedgerOracle where
  connectResult : Except String Unit := Except.ok ()
  autofillResult : Except String AutofillFill
  accountInfoResult : Except String (Option (List SignerList)) := Except.ok none
  submitResult : Except String SubmitResponse
  ledgerEntryResult : Except LedgerFailure EscrowNode

/-- External calls a service operation issues, in order. -/
inductive SvcEvent where
  | connect
  | accountInfoQuery (account : String)
  | autofillCall (tx : EscrowTx)
  | encodeTx (tx : EscrowTx)
  | submitBlob
  | ledgerEntryQuery (owner : String) (seq : Int)
deriving DecidableEq, Repr

/-- Errors a service operation throws: the address-validation `Error`s, a
transport/connect/autofill/submit rejection, or a rethrown ledger-request
failure (carrying its `data.error` code). -/
inductive SvcError where
  | invalidAddress (msg : String)
  | transport (msg : String)
  | ledgerErr (msg : String) (dataError : Option String)
deriving DecidableEq, Repr

/-- `error.message` of a thrown service error, as the routes report it. -/
def SvcError.message : SvcError → String
  | SvcError.invalidAddress m => m
  | SvcError.transport m => m
  | SvcError.ledgerErr m _ => m

/-- The `instructions` object of a prepare result; `multisigRequired` is a key
only some branches set. -/
structure Instructions where
  message : String
  signingRequired : Bool
  multisigRequired : Option Bool := none
deriving DecidableEq, Repr

/-- Result of `prepareEscrowCreate` / `prepareEscrowCancel`. -/
structure PrepareResult where
  success : Bool
  transaction : EscrowTx
  instructions : Instructions
deriving DecidableEq, Repr

/-- Result of `prepareEscrowFinish`: the prepared transaction, the multisig
flag, and (in the multisig branch) the first ledger signer list. -/
structure FinishResult where
  success : Bool
  transaction : EscrowTx
  requiresMultisig : Bool
  signerList : Option SignerList
  instructions : Instructions
deriving DecidableEq, Repr

/-- Result of `submitTransaction`. -/
structure SubmitResult where
  success : Bool
  txHash : String
  resultCode : String
  resultMessage : String
  validated : Bool
deriving DecidableEq, Repr

/-- Result of `submitMultisigTransaction`. -/
structure MultisigSubmitResult where
  success : Bool
  txHash : String
  resultCode : String
  resultMessage : String
  signerCount : Nat
  signers : List String
  validated : Bool
deriving DecidableEq, Repr

/-- The domain view of an escrow entry returned by `getEscrowStatus`. -/
structure EscrowView where
  owner : String
  destination : String
  amount : Amount
  finishAfter : Int
  cancelAfter : Option Int
  condition : Option String
  sourceTag : Option Int
  destinationTag : Option Int
  previousTxnID : String
deriving DecidableEq, Repr

/-- Result of `getEscrowStatus`: `status` is `"active"` or `"not_found"`. -/
structure StatusResult where
  success : Bool
  status : String
  escrow : Option EscrowView := none
  message : Option String := none
deriving DecidableEq, Repr

/-- The trace `initialize()` leaves: a connect attempt only when the client
is absent or disconnected. -/
def initTrace (st : ClientState) : List SvcEvent :=
  if st.connected then [] else [SvcEvent.connect]

/-- `initialize()`: reuse a connected client, otherwise connect (which may
throw a transport error). -/
def connectStep (st : ClientState) (o : LedgerOracle) :
    List SvcEvent × Except SvcError Unit :=
  if st.connected then ([], Except.ok ())
  else
    match o.connectResult with
    | Except.ok _ => ([SvcEvent.connect], Except.ok ())
    | Except.error e => ([SvcEvent.connect], Except.error (SvcError.transport e))

/-- The connection step does not fail: the client is already connected or
the connect attempt succeeds. -/
def connOk (st : ClientState) (o : LedgerOracle) : Prop :=
  st.connected = true ∨ o.connectResult = Except.ok ()

/-- `autofill`'s effect on a transaction, per the spec's gateway contract
(adds Fee, Sequence, LastLedgerSequence; leaves given fields unchanged). -/
def applyAutofill (f : AutofillFill) (tx : EscrowTx) : EscrowTx :=
  { tx with
    fee := some f.fee
    sequence := some f.sequence
    lastLedgerSequence := some f.lastLedgerSequence }

/-- The `escrowTx` object `prepareEscrowCreate` builds before autofill:
mandatory fields plus the truthiness-guarded conditional assignments of
FinishAfter, CancelAfter, Condition and Memos. -/
def mkCreateTx (p : CreateParams) : EscrowTx :=
  { transactionType := "EscrowCreate"
    account := p.sourceAddress
    destination := some p.destinationAddress
    amount := some p.amount
    finishAfter := optRipple p.finishAfter
    cancelAfter := optRipple p.cancelAfter
    condition := optStr p.condition
    memos := match p.memo with
      | some m => some [mkMemoEntry m]
      | none => none }

/-- The `finishTx` object `prepareEscrowFinish` builds before autofill. -/
def mkFinishTx (p : FinishParams) : EscrowTx :=
  { transactionType := "EscrowFinish"
    account := p.finisherAddress
    owner := some p.ownerAddress
    offerSequence := some p.offerSequence
    fulfillment := optStr p.fulfillment }

/-- The `cancelTx` object `prepareEscrowCancel` builds before autofill. -/
def mkCancelTx (p : CancelParams) : EscrowTx :=
  { transactionType := "EscrowCancel"
    account := p.cancellerAddress
    owner := some p.ownerAddress
    offerSequence := some p.offerSequence }

/-- `instructions` of a successful `prepareEscrowCreate`. -/
def createInstructions : Instructions :=
  { message := "Transaction prepared. Sign this transaction with your private key and submit via /api/escrow/submit"
    signingRequired := true }

/-- `instructions` of the multisig branch of `prepareEscrowFinish`. -/
def multisigFinishInstructions : Instructions :=
  { message := "This account requires multisignature. Collect signatures from required signers and submit via /api/escrow/submit-multisig"
    signingRequired := true
    multisigRequired := some true }

/-- `instructions` of the single-signature branch of `prepareEscrowFinish`. -/
def singleFinishInstructions : Instructions :=
  { message := "Transaction prepared. Sign and submit via /api/escrow/submit"
    signingRequired := true }

/-- `instructions` of a successful `prepareEscrowCancel`. -/
def cancelInstructions : Instructions :=
  { message := "Transaction prepared. Sign and submit via /api/escrow/submit"
    signingRequired := true }

/-- `prepareEscrowCreate`: connect, validate the two addresses (throwing on a
malformed one), build the transaction, autofill, and return the prepared
descriptor.  `isValid` is the external `xrpl.isValidAddress` predicate. -/
def prepareEscrowCreate (isValid : String → Bool) (st : ClientState)
    (o : LedgerOracle) (p : CreateParams) :
    List SvcEvent × Except SvcError PrepareResult :=
  match connectStep st o with
  | (tr, Except.error e) => (tr, Except.error e)
  | (tr, Except.ok _) =>
    if isValid p.sourceAddress = false then
      (tr, Except.error (SvcError.invalidAddress "Invalid source address"))
    else if isValid p.destinationAddress = false then
      (tr, Except.error (SvcError.invalidAddress "Invalid destination address"))
    else
      match o.autofillResult with
      | Except.error e =>
        (tr ++ [SvcEvent.autofillCall (mkCreateTx p)],
         Except.error (SvcError.transport e))
      | Except.ok f =>
        (tr ++ [SvcEvent.autofillCall (mkCreateTx p)],
         Except.ok
           { success := true
             transaction := applyAutofill f (mkCreateTx p)
             instructions := createInstructions })

/-- `prepareEscrowFinish`: connect, validate addresses, build the transaction,
query `account_info` for the finisher's signer lists, autofill, and branch on
whether a non-empty signer-list array was found. -/
def prepareEscrowFinish (isValid : String → Bool) (st : ClientState)
    (o : LedgerOracle) (p : FinishParams) :
    List SvcEvent × Except SvcError FinishResult :=
  match connectStep st o with
  | (tr, Except.error e) => (tr, Except.error e)
  | (tr, Except.ok _) =>
    if isValid p.finisherAddress = false then
      (tr, Except.error (SvcError.invalidAddress "Invalid finisher address"))
    else if isValid p.ownerAddress = false then
      (tr, Except.error (SvcError.invalidAddress "Invalid owner address"))
    else
      match o.accountInfoResult with
      | Except.error e =>
        (tr ++ [SvcEvent.accountInfoQuery p.finisherAddress],
         Except.error (SvcError.transport e))
      | Except.ok sls =>
        match o.autofillResult with
        | Except.error e =>
          (tr ++ [SvcEvent.accountInfoQuery p.finisherAddress,
                  SvcEvent.autofillCall (mkFinishTx p)],
           Except.error (SvcError.transport e))
        | Except.ok f =>
          (tr ++ [SvcEvent.accountInfoQuery p.finisherAddress,
                  SvcEvent.autofillCall (mkFinishTx p)],
           Except.ok
             (match sls with
              | some (sl :: _) =>
                { success := true
                  transaction := applyAutofill f (mkFinishTx p)
                  requiresMultisig := true
                  signerList := some sl
                  instructions := multisigFinishInstructions }
              | _ =>
                { success := true
                  transaction := applyAutofill f (mkFinishTx p)
                  requiresMultisig := false
                  signerList := none
                  instructions := singleFinishInstructions }))

/-- `prepareEscrowCancel`: connect, validate addresses, build, autofill. -/
def prepareEscrowCancel (isValid : String → Bool) (st : ClientState)
    (o : LedgerOracle) (p : CancelParams) :
    List SvcEvent × Except SvcError PrepareResult :=
  match connectStep st o with
  | (tr, Except.error e) => (tr, Except.error e)
  | (tr, Except.ok _) =>
    if isValid p.cancellerAddress = false then
      (tr, Except.error (SvcError.invalidAddress "Invalid canceller address"))
    else if isValid p.ownerAddress = false then
      (tr, Except.error (SvcError.invalidAddress "Invalid owner address"))
    else
      match o.autofillResult with
      | Except.error e =>
        (tr ++ [SvcEvent.autofillCall (mkCancelTx p)],
         Except.error (SvcError.transport e))
      | Except.ok f =>
        (tr ++ [SvcEvent.autofillCall (mkCancelTx p)],
         Except.ok
           { success := true
             transaction := applyAutofill f (mkCancelTx p)
             instructions := cancelInstructions })

/-- `submitTransaction`: connect, forward the signed blob, and normalize the
engine result (`success = (engine_result === 'tesSUCCESS')`); a transport
rejection of `submit` is rethrown. -/
def submitTransaction (st : ClientState) (o : LedgerOracle)
    (signedTxBlob : String) :
    List SvcEvent × Except SvcError SubmitResult :=
  match connectStep st o with
  | (tr, Except.error e) => (tr, Except.error e)
  | (tr, Except.ok _) =>
    match o.submitResult with
    | Except.error e =>
      (tr ++ [SvcEvent.submitBlob], Except.error (SvcError.transport e))
    | Except.ok r =>
      (tr ++ [SvcEvent.submitBlob],
       Except.ok
         { success := if r.engineResult = "tesSUCCESS" then true else false
           txHash := r.txJsonHash
           resultCode := r.engineResult
           resultMessage := r.engineResultMessage
           validated := r.validated.getD false })

/-- One signer entry from a signature packet:
`{ Signer: { Account, TxnSignature, SigningPubKey: sig.publicKey || '' } }`. -/
def mkSigner (sig : SignaturePacket) : SignerEntry :=
  { account := sig.signer
    txnSignature := sig.signature
    signingPubKey := jsOrDefault sig.publicKey "" }

/-- The multisigned transaction `submitMultisigTransaction` builds: the input
transaction spread, with `Signers` set to the mapped packets and
`SigningPubKey` overwritten with the empty string. -/
def mkMultisignedTx (p : MultisigParams) : EscrowTx :=
  { p.transaction with
    signers := some (p.signatures.map mkSigner)
    signingPubKey := some "" }

/-- `submitMultisigTransaction`: connect, assemble the signer entries in the
caller's order, clear the signing key, encode, submit, and normalize the
engine result.  There is no emptiness check on `signatures`. -/
def submitMultisigTransaction (st : ClientState) (o : LedgerOracle)
    (p : MultisigParams) :
    List SvcEvent × Except SvcError MultisigSubmitResult :=
  match connectStep st o with
  | (tr, Except.error e) => (tr, Except.error e)
  | (tr, Except.ok _) =>
    match o.submitResult with
    | Except.error e =>
      (tr ++ [SvcEvent.encodeTx (mkMultisignedTx p), SvcEvent.submitBlob],
       Except.error (SvcError.transport e))
    | Except.ok r =>
      (tr ++ [SvcEvent.encodeTx (mkMultisignedTx p), SvcEvent.submitBlob],
       Except.ok
         { success := if r.engineResult = "tesSUCCESS" then true else false
           txHash := r.txJsonHash
           resultCode := r.engineResult
           resultMessage := r.engineResultMessage
           signerCount := p.signatures.length
           signers := p.signatures.map (fun s => s.signer)
           validated := r.validated.getD false })

/-- `escrow.CancelAfter ? fromRippleTime(escrow.CancelAfter) : null`. -/
def optCancelView (x : Option Int) : Option Int :=
  match x with
  | some t => if t = 0 then none else some (fromRippleTime t)
  | none => none

/-- `x || null` on an optional string field of the ledger node. -/
def orNullStr (x : Option String) : Option String :=
  match x with
  | some s => if s = "" then none else some s
  | none => none

/-- `x || null` on an optional numeric field of the ledger node. -/
def orNullInt (x : Option Int) : Option Int :=
  match x with
  | some n => if n = 0 then none else some n
  | none => none

/-- The `escrow` view `getEscrowStatus` builds from the ledger node. -/
def mkEscrowView (n : EscrowNode) : EscrowView :=
  { owner := n.account
    destination := n.destination
    amount := n.amount
    finishAfter := fromRippleTime n.finishAfterTime
    cancelAfter := optCancelView n.cancelAfterTime
    condition := orNullStr n.condition
    sourceTag := orNullInt n.sourceTag
    destinationTag := orNullInt n.destinationTag
    previousTxnID := n.previousTxnID }

/-- The `not_found` result of `getEscrowStatus`. -/
def notFoundStatus : StatusResult :=
  { success := true
    status := "not_found"
    message := some "Escrow not found. It may have been finished or cancelled." }

/-- `getEscrowStatus`: connect, query `ledger_entry`; a found node yields the
`active` view; a request failure whose `data.error` is `entryNotFound` is
translated to the `not_found` result; any other failure is rethrown. -/
def getEscrowStatus (st : ClientState) (o : LedgerOracle)
    (ownerAddress : String) (offerSequence : Int) :
    List SvcEvent × Except SvcError StatusResult :=
  match connectStep st o with
  | (tr, Except.error e) => (tr, Except.error e)
  | (tr, Except.ok _) =>
    match o.ledgerEntryResult with
    | Except.ok node =>
      (tr ++ [SvcEvent.ledgerEntryQuery ownerAddress offerSequence],
       Except.ok
         { success := true
           status := "active"
           escrow := some (mkEscrowView node) })
    | Except.error fail =>
      (tr ++ [SvcEvent.ledgerEntryQuery ownerAddress offerSequence],
       if fail.dataError = some "entryNotFound" then Except.ok notFoundStatus
       else Except.error (SvcError.ledgerErr fail.message fail.dataError))

/-- Character range test by code point, for the address pattern classes. -/
def inRange (lo hi c : Char) : Bool :=
  decide (lo.toNat ≤ c.toNat) && decide (c.toNat ≤ hi.toNat)

/-- A character of the base58 alphabet `[1-9A-HJ-NP-Za-km-z]` used by the
`xrplAddress` pattern. -/
def isBase58Char (c : Char) : Bool :=
  inRange '1' '9' c || inRange 'A' 'H' c || inRange 'J' 'N' c ||
  inRange 'P' 'Z' c || inRange 'a' 'k' c || inRange 'm' 'z' c

/-- The validators' address pattern `/^r[1-9A-HJ-NP-Za-km-z]{25,34}$/`. -/
def matchesXrplAddress (s : String) : Bool :=
  match s.data with
  | [] => false
  | c :: rest =>
    decide (c = 'r') && decide (25 ≤ rest.length) && decide (rest.length ≤ 34) &&
    rest.all isBase58Char

/-- The drops pattern `/^\d+$/`. -/
def isDigitString (s : String) : Bool :=
  decide (s.data ≠ []) && s.data.all (inRange '0' '9')

/-- `if b then [f] else []`: one validation detail for a violated rule. -/
def errIf (b : Bool) (f : String) : List String :=
  if b then [f] else []

/-- Request body of the create endpoint before validation: every field may be
absent, and the amount may be either alternative shape. -/
structure CreateBody where
  sourceAddress : Option String := none
  destinationAddress : Option String := none
  amount : Option Amount := none
  finishAfter : Option Int := none
  cancelAfter : Option Int := none
  condition : Option String := none
  memo : Option MemoSpec := none
deriving DecidableEq, Repr

/-- A signature packet in the submit-multisig request body, fields optional. -/
structure SignaturePacketBody where
  signer : Option String := none
  signature : Option String := none
  publicKey : Option String := none
deriving DecidableEq, Repr

/-- Request body of the submit-multisig endpoint before validation. -/
structure MultisigBody where
  transaction : Option EscrowTx := none
  signatures : Option (List SignaturePacketBody) := none
deriving DecidableEq, Repr

/-- Fields of `escrowCreateSchema` a request body violates, in schema order:
required well-formed addresses, a digits-only drops string or a
`{currency(3), value, issuer?}` object, `finishAfter` required and not below
`now` (the `Math.floor(Date.now() / 1000)` captured when the schema was
built), `cancelAfter` not below `finishAfter` when both are present, any
string as condition, and memo `type`/`data` length bounds.  Validation
passes exactly when this list is empty. -/
def escrowCreateErrors (now : Int) (b : CreateBody) : List String :=
  errIf (match b.sourceAddress with
         | some s => !(matchesXrplAddress s)
         | none => true) "sourceAddress" ++
  errIf (match b.destinationAddress with
         | some s => !(matchesXrplAddress s)
         | none => true) "destinationAddress" ++
  errIf (match b.amount with
         | some (Amount.drops s) => !(isDigitString s)
         | some (Amount.issued c v i) =>
           !((match c with | some cs => decide (cs.length = 3) | none => false) &&
             (match v with | some _ => true | none => false) &&
             (match i with | some s => matchesXrplAddress s | none => true))
         | none => true) "amount" ++
  errIf (match b.finishAfter with
         | some t => decide (t < now)
         | none => true) "finishAfter" ++
  errIf (match b.cancelAfter, b.finishAfter with
         | some caT, some faT => decide (caT < faT)
         | _, _ => false) "cancelAfter" ++
  errIf (match b.memo with
         | some m =>
           !((match m.type with | some ty => decide (ty.length ≤ 100) | none => true) &&
             (match m.data with | some d => decide (d.length ≤ 1000) | none => true))
         | none => false) "memo"

/-- Fields of `multisigSubmitSchema` a request body violates: `transaction`
required, `signatures` a required array of at least one item, each item with
a required well-formed `signer` address and a required `signature`. -/
def multisigSubmitErrors (b : MultisigBody) : List String :=
  errIf (match b.transaction with | some _ => false | none => true) "transaction" ++
  (match b.signatures with
   | none => ["signatures"]
   | some l =>
     errIf (decide (l.length < 1)) "signatures" ++
     l.enum.flatMap (fun pr =>
       errIf (match pr.2.signer with
              | some s => !(matchesXrplAddress s)
              | none => true) ("signatures." ++ toString pr.1 ++ ".signer") ++
       errIf (match pr.2.signature with
              | some _ => false
              | none => true) ("signatures." ++ toString pr.1 ++ ".signature")))

/-- The validated create body as the service receives it (`req.body = value`).
The defaults are never used on a body that passed validation. -/
def toCreateParams (b : CreateBody) : CreateParams :=
  { sourceAddress := b.sourceAddress.getD ""
    destinationAddress := b.destinationAddress.getD ""
    amount := b.amount.getD (Amount.drops "0")
    finishAfter := b.finishAfter
    cancelAfter := b.cancelAfter
    condition := b.condition
    memo := b.memo }

/-- The validated submit-multisig body as the service receives it. -/
def toMultisigParams (b : MultisigBody) : MultisigParams :=
  { transaction := b.transaction.getD {}
    signatures := (b.signatures.getD []).map (fun pb =>
      { signer := pb.signer.getD ""
        signature := pb.signature.getD ""
        publicKey := pb.publicKey }) }

/-- An endpoint outcome: the success envelope, a 400 validation-failure
envelope with its details, or a 400 envelope with a thrown error's message. -/
inductive ApiResponse (R : Type) where
  | ok (data : R)
  | validationFailed (details : List String)
  | failed (message : String)
deriving DecidableEq, Repr

/-- The create route: the validation middleware runs `escrowCreateSchema`
first (issuing no ledger call), and only a valid body reaches
`prepareEscrowCreate`; a thrown service error becomes a 400 envelope. -/
def postEscrowCreate (isValid : String → Bool) (now : Int) (st : ClientState)
    (o : LedgerOracle) (b : CreateBody) :
    List SvcEvent × ApiResponse PrepareResult :=
  if (escrowCreateErrors now b).isEmpty then
    match prepareEscrowCreate isValid st o (toCreateParams b) with
    | (tr, Except.ok r) => (tr, ApiResponse.ok r)
    | (tr, Except.error e) => (tr, ApiResponse.failed e.message)
  else ([], ApiResponse.validationFailed (escrowCreateErrors now b))

/-- The submit-multisig route: `multisigSubmitSchema` validation first, then
`submitMultisigTransaction` on the validated body. -/
def postSubmitMultisig (st : ClientState) (o : LedgerOracle)
    (b : MultisigBody) :
    List SvcEvent × ApiResponse MultisigSubmitResult :=
  if (multisigSubmitErrors b).isEmpty then
    match submitMultisigTransaction st o (toMultisigParams b) with
    | (tr, Except.ok r) => (tr, ApiResponse.ok r)
    | (tr, Except.error e) => (tr, ApiResponse.failed e.message)
  else ([], ApiResponse.validationFailed (multisigSubmitErrors b))

/-- Sample well-formed ledger addresses (they match the validators' pattern). -/
def addrA : String := "rHb9CJAWyB4rj91VRWn96DkukG4bwdtyTh"

/-- A second sample well-formed ledger address. -/
def addrB : String := "rPT1Sjq2YGrBMTttX4GZHjKu9dyfzbpAYe"

/-- Sample autofill data used by the concrete witnesses. -/
def sampleFill : AutofillFill :=
  { fee := "12", sequence := 7, lastLedgerSequence := 900 }

/-- A sample accepted submit reply. -/
def sampleSubmitOk : SubmitResponse :=
  { engineResult := "tesSUCCESS"
    engineResultMessage := "The transaction was applied."
    txJsonHash := "A1B2C3" }

/-- A sample engine rejection reply. -/
def sampleSubmitRej : SubmitResponse :=
  { engineResult := "tecNO_PERMISSION"
    engineResultMessage := "No permission to perform requested operation."
    txJsonHash := "D4E5F6" }

/-- A sample reachable ledger whose submit succeeds and whose escrow entry
is missing. -/
def sampleOracle : LedgerOracle :=
  { autofillResult := Except.ok sampleFill
    submitResult := Except.ok sampleSubmitOk
    ledgerEntryResult := Except.error { message := "entryNotFound", dataError := some "entryNotFound" } }

/-- A sample ledger whose submit returns an engine rejection. -/
def rejOracle : LedgerOracle :=
  { autofillResult := Except.ok sampleFill
    submitResult := Except.ok sampleSubmitRej
    ledgerEntryResult := Except.error { message := "ledgerEntry failed", dataError := some "invalidParams" } }

/-- A sample ledger whose transport rejects submit and ledger queries. -/
def downOracle : LedgerOracle :=
  { autofillResult := Except.ok sampleFill
    submitResult := Except.error "connection lost"
    ledgerEntryResult := Except.error { message := "socket closed", dataError := none } }

/-- A sample ledger signer list with a quorum of two. -/
def sampleSignerList : SignerList :=
  { signerQuorum := 2
    signerEntries := [{ account := addrA, signerWeight := 1 },
                      { account := addrB, signerWeight := 1 }] }

/-- A sample ledger reporting a signer list for the queried account. -/
def multisigOracle : LedgerOracle :=
  { autofillResult := Except.ok sampleFill
    accountInfoResult := Except.ok (some [sampleSignerList])
    submitResult := Except.ok sampleSubmitOk
    ledgerEntryResult := Except.error { message := "entryNotFound", dataError := some "entryNotFound" } }

/-- A sample input transaction for multisig submission, carrying a non-empty
signing key that the assembler must clear. -/
def cexMultisigTx : EscrowTx :=
  { transactionType := "EscrowFinish"
    account := addrA
    owner := some addrB
    offerSequence := some 5
    signingPubKey := some "ED0123456789" }

/-- The Memos field of a prepare outcome, when the outcome is a result. -/
def txMemos : Except SvcError PrepareResult → Option (List MemoEntry)
  | Except.ok r => r.transaction.memos
  | Except.error _ => none

/-- A successful connection step leaves exactly the lazy-connect trace. -/
theorem connectStep_ok (st : ClientState) (o : LedgerOracle) (h : connOk st o) :
    connectStep st o = (initTrace st, Except.ok ()) := by
  unfold connectStep initTrace
  by_cases hc : st.connected = true
  · simp [hc]
  · rcases h with h | h
    · exact absurd h hc
    · simp [hc, h]

/-- Every character encodes to at least one UTF-8 byte. -/
theorem charUtf8_ne_nil (c : Char) : charUtf8 c ≠ [] := by
  unfold charUtf8
  by_cases h1 : c.toNat < 128
  · simp [h1]
  · by_cases h2 : c.toNat < 2048
    · simp [h1, h2]
    · by_cases h3 : c.toNat < 65536
      · simp [h1, h2, h3]
      · simp [h1, h2, h3]

/-- The hex codec maps a non-empty string to a non-empty string. -/
theorem toHex_ne_empty (s : String) (h : s ≠ "") : toHex s ≠ "" := by
  unfold toHex stringUtf8
  cases s with
  | mk l =>
    cases l with
    | nil => exact absurd rfl h
    | cons c cs =>
      rcases hcc : charUtf8 c with _ | ⟨b, bs⟩
      · exact absurd hcc (charUtf8_ne_nil c)
      · have hstep : (c :: cs).flatMap charUtf8 = charUtf8 c ++ cs.flatMap charUtf8 := rfl
        rw [hstep, hcc]
        have hstep2 :
            ((b :: (bs ++ cs.flatMap charUtf8)).flatMap byteHexChars) =
              byteHexChars b ++ (bs ++ cs.flatMap charUtf8).flatMap byteHexChars := rfl
        simp only [List.cons_append, hstep2, byteHexChars]
        simp [String.ext_iff]

/-- The memo-type fallback `memo.type || 'escrow'` is never the empty string. -/
theorem jsOrDefault_type_ne (x : Option String) : jsOrDefault x "escrow" ≠ "" := by
  unfold jsOrDefault
  cases x with
  | none => simp
  | some s =>
    by_cases hs : s = "" <;> simp [hs]

/-- C9: for every integer t, `fromRippleTime (toRippleTime t) = t` — the time
codec subtracts exactly 946684800 one way and adds it back the other way, an
exact round-trip with no other dependence. -/
theorem ripple_time_roundtrip (t : Int) : fromRippleTime (toRippleTime t) = t := by
  unfold toRippleTime fromRippleTime
  omega

/-- C1 counterexample: on a fresh (disconnected) client, `prepareEscrowCreate`
with a structurally malformed source address does fail with the
invalid-address error, but only after a connection to the ledger network has
been established — the trace already contains the connect call when the
address check rejects, contradicting the claim that no connection
establishment is issued before the rejection. -/
theorem prepareCreate_connects_before_address_check :
    prepareEscrowCreate matchesXrplAddress { connected := false } sampleOracle
      { sourceAddress := "x"
        destinationAddress := addrB
        amount := Amount.drops "1000000"
        finishAfter := some 1700003600 } =
    ([SvcEvent.connect],
     Except.error (SvcError.invalidAddress "Invalid source address")) := by
  rfl

/-- C1 amended: in each of `prepareEscrowCreate`, `prepareEscrowFinish` and
`prepareEscrowCancel`, a request with a structurally malformed address fails
with the invalid-address error (provided the entry connection step succeeds),
and the rejection is issued before any account query, autofill or submission
— the only external call that may precede it is the lazy connection
establishment performed on entry. -/
theorem invalid_address_rejected_before_ledger_queries
    (isValid : String → Bool) (st : ClientState) (o : LedgerOracle)
    (pc : CreateParams) (pf : FinishParams) (pk : CancelParams)
    (hconn : connOk st o)
    (hc : isValid pc.sourceAddress = false ∨ isValid pc.destinationAddress = false)
    (hf : isValid pf.finisherAddress = false ∨ isValid pf.ownerAddress = false)
    (hk : isValid pk.cancellerAddress = false ∨ isValid pk.ownerAddress = false) :
    prepareEscrowCreate isValid st o pc =
      (initTrace st, Except.error (SvcError.invalidAddress
        (if isValid pc.sourceAddress = true then "Invalid destination address"
         else "Invalid source address"))) ∧
    prepareEscrowFinish isValid st o pf =
      (initTrace st, Except.error (SvcError.invalidAddress
        (if isValid pf.finisherAddress = true then "Invalid owner address"
         else "Invalid finisher address"))) ∧
    prepareEscrowCancel isValid st o pk =
      (initTrace st, Except.error (SvcError.invalidAddress
        (if isValid pk.cancellerAddress = true then "Invalid owner address"
         else "Invalid canceller address"))) := by
  have hcs := connectStep_ok st o hconn
  refine ⟨?_, ?_, ?_⟩
  · unfold prepareEscrowCreate
    rw [hcs]
    cases h1 : isValid pc.sourceAddress with
    | false => simp [h1]
    | true =>
      rcases hc with h | h
      · rw [h1] at h; exact absurd h (by simp)
      · simp [h1, h]
  · unfold prepareEscrowFinish
    rw [hcs]
    cases h1 : isValid pf.finisherAddress with
    | false => simp [h1]
    | true =>
      rcases hf with h | h
      · rw [h1] at h; exact absurd h (by simp)
      · simp [h1, h]
  · unfold prepareEscrowCancel
    rw [hcs]
    cases h1 : isValid pk.cancellerAddress with
    | false => simp [h1]
    | true =>
      rcases hk with h | h
      · rw [h1] at h; exact absurd h (by simp)
      · simp [h1, h]

/-- Concrete instance of the amended C1 theorem: on an already-connected
client, each of the three prepare operations rejects a malformed address
with the invalid-address error and an empty external-call trace. -/
theorem invalid_address_rejected_before_ledger_queries_witness :
    prepareEscrowCreate matchesXrplAddress { connected := true } sampleOracle
      { sourceAddress := "x", destinationAddress := addrB,
        amount := Amount.drops "1000000", finishAfter := some 1700003600 } =
      (initTrace { connected := true },
       Except.error (SvcError.invalidAddress
         (if matchesXrplAddress "x" = true then "Invalid destination address"
          else "Invalid source address"))) ∧
    prepareEscrowFinish matchesXrplAddress { connected := true } sampleOracle
      { finisherAddress := "bad", ownerAddress := addrA, offerSequence := 5 } =
      (initTrace { connected := true },
       Except.error (SvcError.invalidAddress
         (if matchesXrplAddress "bad" = true then "Invalid owner address"
          else "Invalid finisher address"))) ∧
    prepareEscrowCancel matchesXrplAddress { connected := true } sampleOracle
      { cancellerAddress := "", ownerAddress := addrA, offerSequence := 5 } =
      (initTrace { connected := true },
       Except.error (SvcError.invalidAddress
         (if matchesXrplAddress "" = true then "Invalid owner address"
          else "Invalid canceller address"))) :=
  invalid_address_rejected_before_ledger_queries matchesXrplAddress
    { connected := true } sampleOracle
    { sourceAddress := "x", destinationAddress := addrB,
      amount := Amount.drops "1000000", finishAfter := some 1700003600 }
    { finisherAddress := "bad", ownerAddress := addrA, offerSequence := 5 }
    { cancellerAddress := "", ownerAddress := addrA, offerSequence := 5 }
    (Or.inl rfl) (Or.inl (by decide)) (Or.inl (by decide)) (Or.inl (by decide))

/-- C2 counterexample: calling `submitMultisigTransaction` with an empty
signatures list does not fail — it encodes a transaction with an empty
`Signers` array and submits it, returning a normal result with
`signerCount = 0`.  The empty-set rejection claimed for the operation does
not exist in the service function. -/
theorem submitMultisig_service_accepts_empty_signatures :
    submitMultisigTransaction { connected := true } sampleOracle
      { transaction := cexMultisigTx, signatures := [] } =
    ([SvcEvent.encodeTx { cexMultisigTx with signers := some [], signingPubKey := some "" },
      SvcEvent.submitBlob],
     Except.ok
       { success := true
         txHash := "A1B2C3"
         resultCode := "tesSUCCESS"
         resultMessage := "The transaction was applied."
         signerCount := 0
         signers := []
         validated := false }) := by
  rfl

/-- C2 amended: the empty-signatures rejection lives in the request schema,
not in the service: a submit-multisig request whose signatures list is empty
fails `multisigSubmitSchema` validation (the at-least-one-item rule on the
`signatures` field) before `submitMultisigTransaction` runs, so no
transaction is encoded or submitted on that path; `submitMultisigTransaction`
itself performs no emptiness check and, if called directly, encodes and
submits a zero-signer transaction. -/
theorem empty_signatures_rejected_by_schema
    (st : ClientState) (o : LedgerOracle) (b : MultisigBody)
    (hsig : b.signatures = some []) :
    postSubmitMultisig st o b =
      ([], ApiResponse.validationFailed (multisigSubmitErrors b)) ∧
    "signatures" ∈ multisigSubmitErrors b := by
  have hmem : "signatures" ∈ multisigSubmitErrors b := by
    unfold multisigSubmitErrors
    rw [hsig]
    simp [errIf]
  have hne : multisigSubmitErrors b ≠ [] := List.ne_nil_of_mem hmem
  have hempty : (multisigSubmitErrors b).isEmpty = false := by
    cases h : multisigSubmitErrors b with
    | nil => exact absurd h hne
    | cons a l => rfl
  refine ⟨?_, hmem⟩
  unfold postSubmitMultisig
  simp [hempty]

/-- Concrete instance of the amended C2 theorem: an empty signatures list is
rejected by validation with an empty external-call trace. -/
theorem empty_signatures_rejected_by_schema_witness :
    postSubmitMultisig { connected := true } sampleOracle
      { transaction := some cexMultisigTx, signatures := some [] } =
      ([], ApiResponse.validationFailed (multisigSubmitErrors
        { transaction := some cexMultisigTx, signatures := some [] })) ∧
    "signatures" ∈ multisigSubmitErrors
      { transaction := some cexMultisigTx, signatures := some [] } :=
  empty_signatures_rejected_by_schema { connected := true } sampleOracle
    { transaction := some cexMultisigTx, signatures := some [] } rfl

/-- C3: `prepareEscrowFinish` reads the finisher account's signer lists from
the ledger; a non-empty array yields `requiresMultisig = true` with the first
signer list (quorum and entries) attached, while an empty or absent array
yields `requiresMultisig = false` with no signer list attached. -/
theorem finish_multisig_flag_matches_signer_list
    (isValid : String → Bool) (st : ClientState) (o : LedgerOracle)
    (p : FinishParams) (hconn : connOk st o)
    (h1 : isValid p.finisherAddress = true) (h2 : isValid p.ownerAddress = true)
    (f : AutofillFill) (haf : o.autofillResult = Except.ok f) :
    (∀ sl rest, o.accountInfoResult = Except.ok (some (sl :: rest)) →
      (prepareEscrowFinish isValid st o p).2 =
        Except.ok
          { success := true
            transaction := applyAutofill f (mkFinishTx p)
            requiresMultisig := true
            signerList := some sl
            instructions := multisigFinishInstructions }) ∧
    (∀ sls, o.accountInfoResult = Except.ok sls → sls = none ∨ sls = some [] →
      (prepareEscrowFinish isValid st o p).2 =
        Except.ok
          { success := true
            transaction := applyAutofill f (mkFinishTx p)
            requiresMultisig := false
            signerList := none
            instructions := singleFinishInstructions }) := by
  have hcs := connectStep_ok st o hconn
  constructor
  · intro sl rest hai
    unfold prepareEscrowFinish
    rw [hcs]
    simp [h1, h2, hai, haf]
  · intro sls hai hempty
    unfold prepareEscrowFinish
    rw [hcs]
    rcases hempty with h | h <;> subst h <;> simp [h1, h2, hai, haf]

/-- Concrete instance of the C3 theorem, one application per branch: a ledger
with a signer list yields the multisig result with the quorum attached; a
ledger without one yields the single-signature result. -/
theorem finish_multisig_flag_matches_signer_list_witness :
    (prepareEscrowFinish matchesXrplAddress { connected := true } multisigOracle
      { finisherAddress := addrA, ownerAddress := addrB, offerSequence := 5 }).2 =
      Except.ok
        { success := true
          transaction := applyAutofill sampleFill (mkFinishTx
            { finisherAddress := addrA, ownerAddress := addrB, offerSequence := 5 })
          requiresMultisig := true
          signerList := some sampleSignerList
          instructions := multisigFinishInstructions } ∧
    (prepareEscrowFinish matchesXrplAddress { connected := true } sampleOracle
      { finisherAddress := addrA, ownerAddress := addrB, offerSequence := 5 }).2 =
      Except.ok
        { success := true
          transaction := applyAutofill sampleFill (mkFinishTx
            { finisherAddress := addrA, ownerAddress := addrB, offerSequence := 5 })
          requiresMultisig := false
          signerList := none
          instructions := singleFinishInstructions } :=
  ⟨(finish_multisig_flag_matches_signer_list matchesXrplAddress
      { connected := true } multisigOracle
      { finisherAddress := addrA, ownerAddress := addrB, offerSequence := 5 }
      (Or.inl rfl) (by decide) (by decide) sampleFill rfl).1
      sampleSignerList [] rfl,
   (finish_multisig_flag_matches_signer_list matchesXrplAddress
      { connected := true } sampleOracle
      { finisherAddress := addrA, ownerAddress := addrB, offerSequence := 5 }
      (Or.inl rfl) (by decide) (by decide) sampleFill rfl).2
      none rfl (Or.inl rfl)⟩

/-- C4: for a non-empty list of N signature packets, the multisigned
descriptor that `submitMultisigTransaction` encodes carries exactly one
signer entry per packet, in the caller's order (entry i is built from packet
i), and its direct-signing-key field is overwritten with the empty string
whatever the input transaction contained. -/
theorem multisig_descriptor_signers_in_order
    (st : ClientState) (o : LedgerOracle) (p : MultisigParams)
    (hne : p.signatures ≠ []) (hconn : connOk st o) :
    (submitMultisigTransaction st o p).1 =
      initTrace st ++ [SvcEvent.encodeTx (mkMultisignedTx p), SvcEvent.submitBlob] ∧
    (mkMultisignedTx p).signers = some (p.signatures.map mkSigner) ∧
    (p.signatures.map mkSigner).length = p.signatures.length ∧
    (∀ i (h : i < p.signatures.length),
      (p.signatures.map mkSigner).get ⟨i, by rw [List.length_map]; exact h⟩ =
        mkSigner (p.signatures.get ⟨i, h⟩)) ∧
    (mkMultisignedTx p).signingPubKey = some "" := by
  have hcs := connectStep_ok st o hconn
  refine ⟨?_, rfl, List.length_map _ _, ?_, rfl⟩
  · unfold submitMultisigTransaction
    rw [hcs]
    cases o.submitResult <;> simp
  · intro i h
    simp [List.get_map]

/-- Concrete instance of the C4 theorem with two signature packets. -/
theorem multisig_descriptor_signers_in_order_witness :
    (submitMultisigTransaction { connected := true } sampleOracle
      { transaction := cexMultisigTx
        signatures := [{ signer := addrB, signature := "SIGB" },
                       { signer := addrA, signature := "SIGA", publicKey := some "EDAA" }] }).1 =
      initTrace { connected := true } ++
        [SvcEvent.encodeTx (mkMultisignedTx
          { transaction := cexMultisigTx
            signatures := [{ signer := addrB, signature := "SIGB" },
                           { signer := addrA, signature := "SIGA", publicKey := some "EDAA" }] }),
         SvcEvent.submitBlob] ∧
    (mkMultisignedTx
      { transaction := cexMultisigTx
        signatures := [{ signer := addrB, signature := "SIGB" },
                       { signer := addrA, signature := "SIGA", publicKey := some "EDAA" }] }).signers =
      some ([{ signer := addrB, signature := "SIGB" },
             { signer := addrA, signature := "SIGA", publicKey := some "EDAA" }].map mkSigner) ∧
    ([({ signer := addrB, signature := "SIGB" } : SignaturePacket),
      { signer := addrA, signature := "SIGA", publicKey := some "EDAA" }].map mkSigner).length = 2 ∧
    (mkMultisignedTx
      { transaction := cexMultisigTx
        signatures := [{ signer := addrB, signature := "SIGB" },
                       { signer := addrA, signature := "SIGA", publicKey := some "EDAA" }] }).signingPubKey =
      some "" := by
  have h := multisig_descriptor_signers_in_order { connected := true } sampleOracle
    { transaction := cexMultisigTx
      signatures := [{ signer := addrB, signature := "SIGB" },
                     { signer := addrA, signature := "SIGA", publicKey := some "EDAA" }] }
    (by decide) (Or.inl rfl)
  exact ⟨h.1, h.2.1, h.2.2.1, h.2.2.2.2⟩

/-- C5: when the ledger engine answers `submit` with any code other than
`tesSUCCESS`, `submitTransaction` returns a normal result with
`success = false` and the rejection code and message populated; only a
transport rejection of the submit call is thrown as an error. -/
theorem submit_rejection_is_normal_result
    (st : ClientState) (o : LedgerOracle) (blob : String)
    (hconn : connOk st o) :
    (∀ r, o.submitResult = Except.ok r → r.engineResult ≠ "tesSUCCESS" →
      (submitTransaction st o blob).2 =
        Except.ok
          { success := false
            txHash := r.txJsonHash
            resultCode := r.engineResult
            resultMessage := r.engineResultMessage
            validated := r.validated.getD false }) ∧
    (∀ m, o.submitResult = Except.error m →
      (submitTransaction st o blob).2 = Except.error (SvcError.transport m)) := by
  have hcs := connectStep_ok st o hconn
  constructor
  · intro r hr hne
    unfold submitTransaction
    rw [hcs]
    simp [hr, hne]
  · intro m hm
    unfold submitTransaction
    rw [hcs]
    simp [hm]

/-- Concrete instance of the C5 theorem, one application per branch: an
engine rejection comes back as a normal result carrying the code, and a
transport failure is thrown. -/
theorem submit_rejection_is_normal_result_witness :
    (submitTransaction { connected := true } rejOracle "DEADBEEF").2 =
      Except.ok
        { success := false
          txHash := "D4E5F6"
          resultCode := "tecNO_PERMISSION"
          resultMessage := "No permission to perform requested operation."
          validated := false } ∧
    (submitTransaction { connected := true } downOracle "DEADBEEF").2 =
      Except.error (SvcError.transport "connection lost") :=
  ⟨(submit_rejection_is_normal_result { connected := true } rejOracle "DEADBEEF"
      (Or.inl rfl)).1 sampleSubmitRej rfl (by decide),
   (submit_rejection_is_normal_result { connected := true } downOracle "DEADBEEF"
      (Or.inl rfl)).2 "connection lost" rfl⟩

/-- C6: `getEscrowStatus` translates a ledger failure whose `data.error` is
the structural `entryNotFound` code into the `not_found` result returned as
a normal success; any other query failure is rethrown as an error, and a
found entry yields the `active` view. -/
theorem status_entry_not_found_is_normal_result
    (st : ClientState) (o : LedgerOracle) (owner : String) (seq : Int)
    (hconn : connOk st o) :
    (∀ fail, o.ledgerEntryResult = Except.error fail →
      fail.dataError = some "entryNotFound" →
      (getEscrowStatus st o owner seq).2 = Except.ok notFoundStatus) ∧
    (∀ fail, o.ledgerEntryResult = Except.error fail →
      fail.dataError ≠ some "entryNotFound" →
      (getEscrowStatus st o owner seq).2 =
        Except.error (SvcError.ledgerErr fail.message fail.dataError)) ∧
    (∀ node, o.ledgerEntryResult = Except.ok node →
      (getEscrowStatus st o owner seq).2 =
        Except.ok
          { success := true
            status := "active"
            escrow := some (mkEscrowView node)
            message := none }) := by
  have hcs := connectStep_ok st o hconn
  refine ⟨?_, ?_, ?_⟩
  · intro fail hf hnf
    unfold getEscrowStatus
    rw [hcs]
    simp [hf, hnf]
  · intro fail hf hnf
    unfold getEscrowStatus
    rw [hcs]
    simp [hf, hnf]
  · intro node hn
    unfold getEscrowStatus
    rw [hcs]
    simp [hn]

/-- Concrete instance of the C6 theorem, one application per branch: a
missing entry yields the `not_found` success, and a transport failure on the
query is thrown. -/
theorem status_entry_not_found_is_normal_result_witness :
    (getEscrowStatus { connected := true } sampleOracle addrA 5).2 =
      Except.ok notFoundStatus ∧
    (getEscrowStatus { connected := true } downOracle addrA 5).2 =
      Except.error (SvcError.ledgerErr "socket closed" none) :=
  ⟨(status_entry_not_found_is_normal_result { connected := true } sampleOracle
      addrA 5 (Or.inl rfl)).1
      { message := "entryNotFound", dataError := some "entryNotFound" } rfl rfl,
   (status_entry_not_found_is_normal_result { connected := true } downOracle
      addrA 5 (Or.inl rfl)).2.1
      { message := "socket closed", dataError := none } rfl (by decide)⟩

/-- C7: a create request in which both times are present with
`cancelAfter < finishAfter` fails `escrowCreateSchema` validation on the
`cancelAfter` rule, so the create endpoint rejects it with the validation
envelope, issues no external call, and never returns a prepared
descriptor. -/
theorem create_rejects_cancel_before_finish
    (isValid : String → Bool) (now : Int) (st : ClientState) (o : LedgerOracle)
    (b : CreateBody) (fa ca : Int)
    (hfa : b.finishAfter = some fa) (hca : b.cancelAfter = some ca)
    (hlt : ca < fa) :
    postEscrowCreate isValid now st o b =
      ([], ApiResponse.validationFailed (escrowCreateErrors now b)) ∧
    "cancelAfter" ∈ escrowCreateErrors now b ∧
    (∀ r, (postEscrowCreate isValid now st o b).2 ≠ ApiResponse.ok r) := by
  have hmem : "cancelAfter" ∈ escrowCreateErrors now b := by
    unfold escrowCreateErrors
    rw [hfa, hca]
    simp [errIf, hlt]
  have hne : escrowCreateErrors now b ≠ [] := List.ne_nil_of_mem hmem
  have hempty : (escrowCreateErrors now b).isEmpty = false := by
    cases h : escrowCreateErrors now b with
    | nil => exact absurd h hne
    | cons a l => rfl
  have hpost : postEscrowCreate isValid now st o b =
      ([], ApiResponse.validationFailed (escrowCreateErrors now b)) := by
    unfold postEscrowCreate
    simp [hempty]
  refine ⟨hpost, hmem, ?_⟩
  intro r
  rw [hpost]
  simp

/-- Concrete instance of the C7 theorem: an otherwise well-formed body with
`cancelAfter < finishAfter` is rejected by validation. -/
theorem create_rejects_cancel_before_finish_witness :
    postEscrowCreate matchesXrplAddress 1700000000 { connected := true }
      sampleOracle
      { sourceAddress := some addrA, destinationAddress := some addrB,
        amount := some (Amount.drops "1000000"),
        finishAfter := some 1700003600, cancelAfter := some 1700000300 } =
      ([], ApiResponse.validationFailed (escrowCreateErrors 1700000000
        { sourceAddress := some addrA, destinationAddress := some addrB,
          amount := some (Amount.drops "1000000"),
          finishAfter := some 1700003600, cancelAfter := some 1700000300 })) ∧
    "cancelAfter" ∈ escrowCreateErrors 1700000000
      { sourceAddress := some addrA, destinationAddress := some addrB,
        amount := some (Amount.drops "1000000"),
        finishAfter := some 1700003600, cancelAfter := some 1700000300 } ∧
    (∀ r, (postEscrowCreate matchesXrplAddress 1700000000 { connected := true }
      sampleOracle
      { sourceAddress := some addrA, destinationAddress := some addrB,
        amount := some (Amount.drops "1000000"),
        finishAfter := some 1700003600, cancelAfter := some 1700000300 }).2 ≠
      ApiResponse.ok r) :=
  create_rejects_cancel_before_finish matchesXrplAddress 1700000000
    { connected := true } sampleOracle
    { sourceAddress := some addrA, destinationAddress := some addrB,
      amount := some (Amount.drops "1000000"),
      finishAfter := some 1700003600, cancelAfter := some 1700000300 }
    1700003600 1700000300 rfl rfl (by decide)

/-- C8: a create request with valid addresses, a drops amount, a present
(non-zero) `finishAfter` and no `cancelAfter`, condition or memo prepares a
descriptor of kind EscrowCreate with account, destination and amount set, no
Condition and no Memos field, and `FinishAfter = finishAfter - 946684800`;
the gateway only adds fee, sequence and the expiry ledger bound. -/
theorem create_scenario_descriptor_fields
    (isValid : String → Bool) (st : ClientState) (o : LedgerOracle)
    (src dst amtStr : String) (fa : Int) (f : AutofillFill)
    (h1 : isValid src = true) (h2 : isValid dst = true)
    (hconn : connOk st o) (haf : o.autofillResult = Except.ok f)
    (hfa : fa ≠ 0) :
    (prepareEscrowCreate isValid st o
      { sourceAddress := src, destinationAddress := dst,
        amount := Amount.drops amtStr, finishAfter := some fa }).2 =
    Except.ok
      { success := true
        transaction :=
          { transactionType := "EscrowCreate"
            account := src
            destination := some dst
            amount := some (Amount.drops amtStr)
            finishAfter := some (fa - 946684800)
            cancelAfter := none
            condition := none
            memos := none
            fee := some f.fee
            sequence := some f.sequence
            lastLedgerSequence := some f.lastLedgerSequence }
        instructions := createInstructions } := by
  have hcs := connectStep_ok st o hconn
  unfold prepareEscrowCreate
  rw [hcs]
  simp [h1, h2, haf, mkCreateTx, applyAutofill, optRipple, optStr,
        toRippleTime, hfa]

/-- Concrete instance of the C8 theorem: the descriptor prepared for the
scenario request, with the ledger-epoch finish time. -/
theorem create_scenario_descriptor_fields_witness :
    (prepareEscrowCreate matchesXrplAddress { connected := true } sampleOracle
      { sourceAddress := addrA, destinationAddress := addrB,
        amount := Amount.drops "1000000", finishAfter := some 1700003600 }).2 =
    Except.ok
      { success := true
        transaction :=
          { transactionType := "EscrowCreate"
            account := addrA
            destination := some addrB
            amount := some (Amount.drops "1000000")
            finishAfter := some (1700003600 - 946684800)
            cancelAfter := none
            condition := none
            memos := none
            fee := some sampleFill.fee
            sequence := some sampleFill.sequence
            lastLedgerSequence := some sampleFill.lastLedgerSequence }
        instructions := createInstructions } :=
  create_scenario_descriptor_fields matchesXrplAddress { connected := true }
    sampleOracle addrA addrB "1000000" 1700003600 sampleFill
    (by decide) (by decide) (Or.inl rfl) rfl (by decide)

/-- C10: a create request that supplies a memo object prepares exactly one
memo entry whose MemoType is the uppercase-hex encoding of the supplied
type — except that an omitted or empty type falls back to the encoding of
the literal "escrow" — and whose MemoData is the encoding of the supplied
data, empty when the data is omitted or empty; in particular the prepared
MemoType is never the empty string. -/
theorem memo_defaults_and_hex_encoding
    (isValid : String → Bool) (st : ClientState) (o : LedgerOracle)
    (p : CreateParams) (m : MemoSpec) (f : AutofillFill)
    (hm : p.memo = some m)
    (h1 : isValid p.sourceAddress = true) (h2 : isValid p.destinationAddress = true)
    (hconn : connOk st o) (haf : o.autofillResult = Except.ok f) :
    txMemos (prepareEscrowCreate isValid st o p).2 = some [mkMemoEntry m] ∧
    (m.type = none ∨ m.type = some "" →
      (mkMemoEntry m).memoType = toHex "escrow") ∧
    (∀ ty, m.type = some ty → ty ≠ "" → (mkMemoEntry m).memoType = toHex ty) ∧
    (m.data = none ∨ m.data = some "" → (mkMemoEntry m).memoData = "") ∧
    (∀ d, m.data = some d → d ≠ "" → (mkMemoEntry m).memoData = toHex d) ∧
    (mkMemoEntry m).memoType ≠ "" := by
  have hcs := connectStep_ok st o hconn
  refine ⟨?_, ?_, ?_, ?_, ?_, ?_⟩
  · unfold prepareEscrowCreate
    rw [hcs]
    simp [h1, h2, haf, txMemos, applyAutofill, mkCreateTx, hm]
  · intro hty
    rcases hty with h | h <;> simp [mkMemoEntry, jsOrDefault, h]
  · intro ty hty hne
    simp [mkMemoEntry, jsOrDefault, hty, hne]
  · intro hd
    rcases hd with h | h <;> simp [mkMemoEntry, jsOrDefault, h] <;> rfl
  · intro d hd hne
    simp [mkMemoEntry, jsOrDefault, hd, hne]
  · exact toHex_ne_empty _ (jsOrDefault_type_ne m.type)

/-- Concrete instance of the C10 theorem: a memo with an explicitly empty
type and no data produces the default "escrow" MemoType and an empty
MemoData. -/
theorem memo_defaults_and_hex_encoding_witness :
    txMemos (prepareEscrowCreate matchesXrplAddress { connected := true }
      sampleOracle
      { sourceAddress := addrA, destinationAddress := addrB,
        amount := Amount.drops "1000000", finishAfter := some 1700003600,
        memo := some { type := some "", data := none } }).2 =
      some [mkMemoEntry { type := some "", data := none }] ∧
    (mkMemoEntry { type := some "", data := none }).memoType ≠ "" := by
  have h := memo_defaults_and_hex_encoding matchesXrplAddress
    { connected := true } sampleOracle
    { sourceAddress := addrA, destinationAddress := addrB,
      amount := Amount.drops "1000000", finishAfter := some 1700003600,
      memo := some { type := some "", data := none } }
    { type := some "", data := none } sampleFill rfl
    (by decide) (by decide) (Or.inl rfl) rfl
  exact ⟨h.1, h.2.2.2.2.2⟩

end Olopa
